import Mathlib

/-!
Shallow embedding of the weather MCP service (src/main.py) and proofs about it.

Modelling conventions:
* JSON numbers are never computed with by the program, only threaded through and
  rendered by Python string formatting; we therefore model a JSON number by the
  text Python's str() produces for it (`PyNum := String`).
* Python dict/list access is modelled explicitly: `d.get(k)` is an `Option`
  lookup, `d[k]` is a fallible lookup raising `KeyError`, `l[0]` a fallible
  index raising `IndexError`.
* The `httpx` client is modelled by the two responses it yields for the two GET
  requests the program can issue; a response is either a transport-level /
  non-2xx failure (everything `httpx.HTTPError` covers, which is what the
  `try/except` blocks catch) or parsed JSON data of the schema the code reads.
* `get_weather_logic` returns both its Python outcome (`Except PyError String`:
  a returned string or a raised exception) and the ordered list of HTTP
  requests it issued, so that claims about which calls are made are statable.
-/

/-- The text Python's str() renders for a JSON number; numbers are only threaded
through and formatted, never computed with, so this is a faithful model. -/
abbrev PyNum := String

/-- Python exceptions `get_weather_logic` can raise. -/
inductive PyError where
  | valueError (msg : String)
  | keyError (key : String)
  | indexError
deriving DecidableEq, Repr

/-- A query-parameter value as the code builds it: a Python str, int, or a
number taken from a JSON response. -/
inductive ParamVal where
  | pstr (s : String)
  | pint (n : Int)
  | num (x : PyNum)
deriving DecidableEq, Repr

/-- An outbound HTTP request: URL, method and query parameters in order. -/
structure Request where
  url : String
  method : String
  params : List (String × ParamVal)
deriving DecidableEq, Repr

/-- Outcome of `client.get` + `raise_for_status` + `.json()`: either an
`httpx.HTTPError` (transport failure or non-2xx status) with its message, or
parsed response data. -/
inductive HttpResult (α : Type) where
  | httpError (msg : String)
  | ok (data : α)
deriving DecidableEq, Repr

/-- One entry of the geocoding `results` list; each expected field may be
absent from the JSON object. -/
structure GeoEntry where
  latitude : Option PyNum
  longitude : Option PyNum
  name : Option String
deriving DecidableEq, Repr

/-- A geocoding response body: the `results` key may be absent. -/
structure GeoData where
  results : Option (List GeoEntry)
deriving DecidableEq, Repr

/-- The `current_weather` object; either numeric field may be absent. -/
structure CurrentWeather where
  temperature : Option PyNum
  windspeed : Option PyNum
deriving DecidableEq, Repr

/-- A weather response body: the `current_weather` key may be absent. -/
structure WeatherData where
  current_weather : Option CurrentWeather
deriving DecidableEq, Repr

/-- The HTTP client as `get_weather_logic` observes it: the reply to its
geocoding request and the reply to its weather request. -/
structure Client where
  geoResp : HttpResult GeoData
  weatherResp : HttpResult WeatherData
deriving DecidableEq, Repr

/-- Python `d[k]` on a field that may be absent: raises `KeyError` on absence. -/
def dictGet {α : Type} (key : String) : Option α → Except PyError α
  | none => .error (.keyError key)
  | some v => .ok v

/-- Python `l[0]`: raises `IndexError` on the empty list. -/
def listGet0 {α : Type} : List α → Except PyError α
  | [] => .error .indexError
  | x :: _ => .ok x

/-- Python truthiness of `geo_data.get("results")`: falsy when the key is
absent or the list is empty (line 66 of main.py). -/
def resultsFalsy (g : GeoData) : Bool :=
  match g.results with
  | none => true
  | some l => l.isEmpty

/-- Python str() applied inside an f-string to a value that may be None:
`None` renders as the text `None`, a number as its textual form. -/
def pyStr : Option PyNum → String
  | none => "None"
  | some v => v

def geo_url : String := "https://geocoding-api.open-meteo.com/v1/search"

def weather_url : String := "https://api.open-meteo.com/v1/forecast"

/-- The geocoding GET request built at lines 55-56 of main.py. -/
def geo_request (city : String) : Request :=
  ⟨geo_url, "GET",
   [("name", .pstr city), ("count", .pint 1),
    ("language", .pstr "en"), ("format", .pstr "json")]⟩

/-- The weather GET request built at lines 78-83 of main.py. -/
def weather_request (lat lng : PyNum) : Request :=
  ⟨weather_url, "GET",
   [("latitude", .num lat), ("longitude", .num lng),
    ("current_weather", .pstr "true")]⟩

/-- Embedding of `get_weather_logic` (main.py lines 47-99). Returns the Python
outcome (returned string or raised exception) together with the ordered list
of HTTP requests issued. -/
def get_weather_logic (city : String) (client : Client) :
    Except PyError String × List Request :=
  let geoReq := geo_request city
  match client.geoResp with
  | .httpError e => (.ok ("Error fetching geocoding data: " ++ e), [geoReq])
  | .ok geo_data =>
    if resultsFalsy geo_data then
      (.error (.valueError ("City not found: " ++ city)), [geoReq])
    else
      match dictGet "results" geo_data.results with
      | .error e => (.error e, [geoReq])
      | .ok rs =>
        match listGet0 rs with
        | .error e => (.error e, [geoReq])
        | .ok location =>
          match dictGet "latitude" location.latitude with
          | .error e => (.error e, [geoReq])
          | .ok lat =>
            match dictGet "longitude" location.longitude with
            | .error e => (.error e, [geoReq])
            | .ok lng =>
              match dictGet "name" location.name with
              | .error e => (.error e, [geoReq])
              | .ok nm =>
                let weatherReq := weather_request lat lng
                match client.weatherResp with
                | .httpError e =>
                  (.ok ("Error fetching weather data: " ++ e), [geoReq, weatherReq])
                | .ok weather_data =>
                  let current := weather_data.current_weather.getD ⟨none, none⟩
                  let temp := current.temperature
                  let wind := current.windspeed
                  (.ok ("Current weather in " ++ nm ++ ": " ++ pyStr temp ++
                        "°C, Wind: " ++ pyStr wind ++ "km/h"),
                   [geoReq, weatherReq])

/-- State of the module-level client management in main.py: `shared` models the
global `http_client` (clients are identified by allocation ids), `nextId` is
the allocator of fresh client instances. -/
structure ClientState where
  shared : Option Nat
  nextId : Nat
deriving DecidableEq, Repr

/-- Embedding of `get_http_client` (main.py lines 39-45): if the global client
is absent, construct and return a fresh client without registering it; else
return the shared one unchanged. -/
def get_http_client (s : ClientState) : Nat × ClientState :=
  match s.shared with
  | none => (s.nextId, ⟨s.shared, s.nextId + 1⟩)
  | some c => (c, s)

/-- Embedding of the `lifespan` startup (main.py line 31): registers a freshly
constructed client as the shared one. -/
def lifespan_start (s : ClientState) : ClientState :=
  ⟨some s.nextId, s.nextId + 1⟩

/-- Modelled from the spec: rendering of a possibly-missing numeric value in
the output, per §4.2 Step 3 — a missing value renders as the language's
null/none textual representation (Python `None`), never a default number. -/
def specNullRender : Option PyNum → String
  | none => "None"
  | some v => v

/-- The first key among latitude, longitude, name absent from a results entry,
in the order main.py lines 71-73 perform the dict lookups; `none` when the
entry is complete. -/
def firstMissingKey (e : GeoEntry) : Option String :=
  match e.latitude with
  | none => some "latitude"
  | some _ =>
    match e.longitude with
    | none => some "longitude"
    | some _ =>
      match e.name with
      | none => some "name"
      | some _ => none

/-- C1: whenever the geocoding response has a first results entry carrying
latitude, longitude and display name, and the weather response carries a
current_weather object with temperature t and windspeed w, get_weather_logic
returns exactly the string built from the resolved display name (not the
caller's input city), t and w. -/
theorem c1_success_format (city : String) (client : Client) (g : GeoData)
    (entry : GeoEntry) (rest : List GeoEntry) (lat lng : PyNum) (nm : String)
    (wd : WeatherData) (t w : PyNum)
    (hg : client.geoResp = .ok g)
    (hr : g.results = some (entry :: rest))
    (hlat : entry.latitude = some lat)
    (hlng : entry.longitude = some lng)
    (hnm : entry.name = some nm)
    (hw : client.weatherResp = .ok wd)
    (hcw : wd.current_weather = some ⟨some t, some w⟩) :
    (get_weather_logic city client).1 =
      .ok ("Current weather in " ++ nm ++ ": " ++ t ++ "°C, Wind: " ++ w ++ "km/h") := by
  simp [get_weather_logic, hg, hr, hlat, hlng, hnm, hw, hcw, resultsFalsy,
        dictGet, listGet0, pyStr]

/-- C1 witness: the Paris instance — latitude 48.85, longitude 2.35,
temperature 15.5, windspeed 10.2 — yields the exact expected string. -/
theorem c1_success_format_witness :
    (get_weather_logic "Paris"
      ⟨.ok ⟨some [⟨some "48.85", some "2.35", some "Paris"⟩]⟩,
       .ok ⟨some ⟨some "15.5", some "10.2"⟩⟩⟩).1 =
      .ok "Current weather in Paris: 15.5°C, Wind: 10.2km/h" := by
  have h := c1_success_format "Paris"
    ⟨.ok ⟨some [⟨some "48.85", some "2.35", some "Paris"⟩]⟩,
     .ok ⟨some ⟨some "15.5", some "10.2"⟩⟩⟩
    ⟨some [⟨some "48.85", some "2.35", some "Paris"⟩]⟩
    ⟨some "48.85", some "2.35", some "Paris"⟩ [] "48.85" "2.35" "Paris"
    ⟨some ⟨some "15.5", some "10.2"⟩⟩ "15.5" "10.2"
    rfl rfl rfl rfl rfl rfl rfl
  simpa using h

/-- C2: when the geocoding call succeeds but its results field is absent or
empty, get_weather_logic raises ValueError (City not found), no string is
returned, and only the geocoding request was issued — no weather call. -/
theorem c2_city_not_found (city : String) (client : Client) (g : GeoData)
    (hg : client.geoResp = .ok g)
    (hres : resultsFalsy g = true) :
    (get_weather_logic city client).1 =
      .error (.valueError ("City not found: " ++ city)) ∧
    (get_weather_logic city client).2 = [geo_request city] := by
  simp [get_weather_logic, hg, hres]

/-- C2 witness: an empty results list for UnknownCity raises the City-not-found
ValueError and makes no weather call. -/
theorem c2_city_not_found_witness :
    (get_weather_logic "UnknownCity" ⟨.ok ⟨some []⟩, .httpError "unused"⟩).1 =
      .error (.valueError "City not found: UnknownCity") ∧
    (get_weather_logic "UnknownCity" ⟨.ok ⟨some []⟩, .httpError "unused"⟩).2 =
      [geo_request "UnknownCity"] := by
  have h := c2_city_not_found "UnknownCity"
    ⟨.ok ⟨some []⟩, .httpError "unused"⟩ ⟨some []⟩ rfl rfl
  simpa using h

/-- C3: when the geocoding HTTP call fails (transport error or non-2xx, both
caught as httpx.HTTPError), get_weather_logic returns — does not raise — the
string built from "Error fetching geocoding data: " and the error details, and
only the geocoding request was issued — no weather call. -/
theorem c3_geocoding_soft_error (city : String) (client : Client) (e : String)
    (hg : client.geoResp = .httpError e) :
    (get_weather_logic city client).1 =
      .ok ("Error fetching geocoding data: " ++ e) ∧
    (get_weather_logic city client).2 = [geo_request city] := by
  simp [get_weather_logic, hg]

/-- C3 witness: a geocoding transport failure with message API Down returns the
soft-failure string and makes no weather call. -/
theorem c3_geocoding_soft_error_witness :
    (get_weather_logic "London" ⟨.httpError "API Down", .httpError "unused"⟩).1 =
      .ok "Error fetching geocoding data: API Down" ∧
    (get_weather_logic "London" ⟨.httpError "API Down", .httpError "unused"⟩).2 =
      [geo_request "London"] := by
  have h := c3_geocoding_soft_error "London"
    ⟨.httpError "API Down", .httpError "unused"⟩ "API Down" rfl
  simpa using h

/-- Helper: the geocoding request never targets the weather endpoint. -/
theorem geo_request_url_ne_weather (city : String) :
    (geo_request city).url ≠ weather_url := by
  simp only [geo_request, geo_url, weather_url]
  decide

/-- C4: when geocoding succeeds with a non-empty results list and the weather
HTTP call is made and fails (transport error or non-2xx, caught as
httpx.HTTPError), get_weather_logic returns — does not raise — the string
built from "Error fetching weather data: " and the error details. The
hypothesis that a request to the weather endpoint appears in the trace
formalises "the weather HTTP call fails", which presupposes the call was
issued. -/
theorem c4_weather_soft_error (city : String) (client : Client) (g : GeoData)
    (e : String)
    (hg : client.geoResp = .ok g)
    (hres : resultsFalsy g = false)
    (hw : client.weatherResp = .httpError e)
    (hmade : ∃ r ∈ (get_weather_logic city client).2, r.url = weather_url) :
    (get_weather_logic city client).1 =
      .ok ("Error fetching weather data: " ++ e) := by
  obtain ⟨r, hrmem, hurl⟩ := hmade
  cases hres' : g.results with
  | none => simp [resultsFalsy, hres'] at hres
  | some rs =>
    cases rs with
    | nil => simp [resultsFalsy, hres'] at hres
    | cons entry rest =>
      cases hlat : entry.latitude with
      | none =>
        simp [get_weather_logic, hg, hres, hres', hlat, dictGet, listGet0] at hrmem
        subst hrmem
        exact absurd hurl (geo_request_url_ne_weather city)
      | some lat =>
        cases hlng : entry.longitude with
        | none =>
          simp [get_weather_logic, hg, hres, hres', hlat, hlng, dictGet,
                listGet0] at hrmem
          subst hrmem
          exact absurd hurl (geo_request_url_ne_weather city)
        | some lng =>
          cases hnm : entry.name with
          | none =>
            simp [get_weather_logic, hg, hres, hres', hlat, hlng, hnm, dictGet,
                  listGet0] at hrmem
            subst hrmem
            exact absurd hurl (geo_request_url_ne_weather city)
          | some nm =>
            simp [get_weather_logic, hg, hres, hres', hlat, hlng, hnm, hw,
                  dictGet, listGet0]

/-- C4 witness: geocoding succeeds for Rome, the weather call is issued and
fails with message Down, and the soft-failure string is returned. -/
theorem c4_weather_soft_error_witness :
    (get_weather_logic "Rome"
      ⟨.ok ⟨some [⟨some "41.9", some "12.5", some "Rome"⟩]⟩,
       .httpError "Down"⟩).1 =
      .ok "Error fetching weather data: Down" := by
  have h := c4_weather_soft_error "Rome"
    ⟨.ok ⟨some [⟨some "41.9", some "12.5", some "Rome"⟩]⟩, .httpError "Down"⟩
    ⟨some [⟨some "41.9", some "12.5", some "Rome"⟩]⟩ "Down"
    rfl rfl rfl ⟨weather_request "41.9" "12.5", by decide, by decide⟩
  simpa using h

/-- C5: with a non-empty results list the pipeline selects the first entry,
however many candidates follow it, and the weather request it issues carries
exactly that entry's latitude and longitude as query parameters; this holds
whatever the weather call then returns. -/
theorem c5_first_result_threading (city : String) (client : Client)
    (g : GeoData) (entry : GeoEntry) (rest : List GeoEntry) (lat lng : PyNum)
    (nm : String)
    (hg : client.geoResp = .ok g)
    (hr : g.results = some (entry :: rest))
    (hlat : entry.latitude = some lat)
    (hlng : entry.longitude = some lng)
    (hnm : entry.name = some nm) :
    (get_weather_logic city client).2 =
      [geo_request city,
       ⟨weather_url, "GET",
        [("latitude", .num lat), ("longitude", .num lng),
         ("current_weather", .pstr "true")]⟩] := by
  cases hw : client.weatherResp with
  | httpError e =>
    simp [get_weather_logic, hg, hr, hlat, hlng, hnm, hw, resultsFalsy,
          dictGet, listGet0, weather_request]
  | ok wd =>
    simp [get_weather_logic, hg, hr, hlat, hlng, hnm, hw, resultsFalsy,
          dictGet, listGet0, weather_request]

/-- C5 witness: with two candidates for Springfield, the weather request
carries the first candidate's coordinates, not the second's. -/
theorem c5_first_result_threading_witness :
    (get_weather_logic "Springfield"
      ⟨.ok ⟨some [⟨some "39.8", some "-89.6", some "Springfield"⟩,
                  ⟨some "42.1", some "-72.6", some "Springfield"⟩]⟩,
       .ok ⟨some ⟨some "20.0", some "3.0"⟩⟩⟩).2 =
      [geo_request "Springfield",
       ⟨weather_url, "GET",
        [("latitude", .num "39.8"), ("longitude", .num "-89.6"),
         ("current_weather", .pstr "true")]⟩] := by
  have h := c5_first_result_threading "Springfield"
    ⟨.ok ⟨some [⟨some "39.8", some "-89.6", some "Springfield"⟩,
                ⟨some "42.1", some "-72.6", some "Springfield"⟩]⟩,
     .ok ⟨some ⟨some "20.0", some "3.0"⟩⟩⟩
    ⟨some [⟨some "39.8", some "-89.6", some "Springfield"⟩,
           ⟨some "42.1", some "-72.6", some "Springfield"⟩]⟩
    ⟨some "39.8", some "-89.6", some "Springfield"⟩
    [⟨some "42.1", some "-72.6", some "Springfield"⟩]
    "39.8" "-89.6" "Springfield" rfl rfl rfl rfl rfl
  simpa using h

/-- C6 counterexample: a geocoding response whose non-empty results list has a
first entry missing latitude (and the other fields) makes get_weather_logic
raise a KeyError — an uncontrolled dict-lookup error, neither a returned
string nor one of the classified error paths (the only classified hard
failure is the City-not-found ValueError). -/
theorem c6_uncontrolled_keyerror_counterexample :
    (get_weather_logic "Atlantis"
      ⟨.ok ⟨some [⟨none, none, none⟩]⟩,
       .ok ⟨some ⟨some "1.0", some "2.0"⟩⟩⟩).1 =
      .error (.keyError "latitude") := by
  rfl

/-- C6 amended: when the first results entry is missing latitude, longitude or
name, get_weather_logic raises an uncontrolled KeyError for exactly the first
missing key in the order latitude, longitude, name — the order of the dict
lookups at main.py lines 71-73; field-absence tolerance applies only to the
weather fields temperature and windspeed. -/
theorem c6_missing_field_keyerror (city : String) (client : Client)
    (g : GeoData) (entry : GeoEntry) (rest : List GeoEntry) (k : String)
    (hg : client.geoResp = .ok g)
    (hr : g.results = some (entry :: rest))
    (hk : firstMissingKey entry = some k) :
    (get_weather_logic city client).1 = .error (.keyError k) := by
  cases hlat : entry.latitude with
  | none =>
    simp only [firstMissingKey, hlat, Option.some.injEq] at hk
    subst hk
    simp [get_weather_logic, hg, hr, hlat, resultsFalsy, dictGet, listGet0]
  | some lat =>
    cases hlng : entry.longitude with
    | none =>
      simp only [firstMissingKey, hlat, hlng, Option.some.injEq] at hk
      subst hk
      simp [get_weather_logic, hg, hr, hlat, hlng, resultsFalsy, dictGet,
            listGet0]
    | some lng =>
      cases hnm : entry.name with
      | none =>
        simp only [firstMissingKey, hlat, hlng, hnm, Option.some.injEq] at hk
        subst hk
        simp [get_weather_logic, hg, hr, hlat, hlng, hnm, resultsFalsy,
              dictGet, listGet0]
      | some nm =>
        simp [firstMissingKey, hlat, hlng, hnm] at hk

/-- C6 amended witness: a first entry missing only the longitude raises the
KeyError for exactly the key longitude, the first missing one in lookup
order. -/
theorem c6_missing_field_keyerror_witness :
    firstMissingKey ⟨some "0.0", none, some "Lemuria"⟩ = some "longitude" ∧
    (get_weather_logic "Lemuria"
      ⟨.ok ⟨some [⟨some "0.0", none, some "Lemuria"⟩]⟩,
       .httpError "unused"⟩).1 = .error (.keyError "longitude") := by
  refine ⟨rfl, ?_⟩
  exact c6_missing_field_keyerror "Lemuria"
    ⟨.ok ⟨some [⟨some "0.0", none, some "Lemuria"⟩]⟩, .httpError "unused"⟩
    ⟨some [⟨some "0.0", none, some "Lemuria"⟩]⟩
    ⟨some "0.0", none, some "Lemuria"⟩ [] "longitude" rfl rfl rfl

/-- C7: on a successful weather response carrying a current_weather object,
the returned string renders each possibly-absent numeric field exactly as the
spec-modelled null rendering prescribes — an absent temperature or windspeed
becomes the text None, a present one its own textual value; in particular the
pipeline never fails on absent numeric fields and never substitutes a default
number. -/
theorem c7_missing_values_render_none (city : String) (client : Client)
    (g : GeoData) (entry : GeoEntry) (rest : List GeoEntry) (lat lng : PyNum)
    (nm : String) (wd : WeatherData) (cw : CurrentWeather)
    (hg : client.geoResp = .ok g)
    (hr : g.results = some (entry :: rest))
    (hlat : entry.latitude = some lat)
    (hlng : entry.longitude = some lng)
    (hnm : entry.name = some nm)
    (hw : client.weatherResp = .ok wd)
    (hcw : wd.current_weather = some cw) :
    (get_weather_logic city client).1 =
      .ok ("Current weather in " ++ nm ++ ": " ++
           specNullRender cw.temperature ++ "°C, Wind: " ++
           specNullRender cw.windspeed ++ "km/h") := by
  cases ht : cw.temperature <;> cases hwind : cw.windspeed <;>
    simp [get_weather_logic, hg, hr, hlat, hlng, hnm, hw, hcw, resultsFalsy,
          dictGet, listGet0, pyStr, specNullRender, ht, hwind]

/-- C7 witness: with temperature absent and windspeed 7.0, the output renders
None for temperature and 7.0 for windspeed. -/
theorem c7_missing_values_render_none_witness :
    (get_weather_logic "Oslo"
      ⟨.ok ⟨some [⟨some "59.9", some "10.7", some "Oslo"⟩]⟩,
       .ok ⟨some ⟨none, some "7.0"⟩⟩⟩).1 =
      .ok "Current weather in Oslo: None°C, Wind: 7.0km/h" := by
  have h := c7_missing_values_render_none "Oslo"
    ⟨.ok ⟨some [⟨some "59.9", some "10.7", some "Oslo"⟩]⟩,
     .ok ⟨some ⟨none, some "7.0"⟩⟩⟩
    ⟨some [⟨some "59.9", some "10.7", some "Oslo"⟩]⟩
    ⟨some "59.9", some "10.7", some "Oslo"⟩ [] "59.9" "10.7" "Oslo"
    ⟨some ⟨none, some "7.0"⟩⟩ ⟨none, some "7.0"⟩
    rfl rfl rfl rfl rfl rfl rfl
  simpa [specNullRender] using h

/-- C8: on the success path the pipeline issues exactly two outbound HTTP
calls, geocoding first and weather second, both GET, with exactly the query
parameters name=city, count=1, language=en, format=json for geocoding and
latitude, longitude (from the resolved location) and current_weather=true for
weather. -/
theorem c8_exact_two_requests (city : String) (client : Client) (g : GeoData)
    (entry : GeoEntry) (rest : List GeoEntry) (lat lng : PyNum) (nm : String)
    (wd : WeatherData)
    (hg : client.geoResp = .ok g)
    (hr : g.results = some (entry :: rest))
    (hlat : entry.latitude = some lat)
    (hlng : entry.longitude = some lng)
    (hnm : entry.name = some nm)
    (hw : client.weatherResp = .ok wd) :
    (get_weather_logic city client).2 =
      [⟨geo_url, "GET",
        [("name", .pstr city), ("count", .pint 1),
         ("language", .pstr "en"), ("format", .pstr "json")]⟩,
       ⟨weather_url, "GET",
        [("latitude", .num lat), ("longitude", .num lng),
         ("current_weather", .pstr "true")]⟩] := by
  simp [get_weather_logic, hg, hr, hlat, hlng, hnm, hw, resultsFalsy,
        dictGet, listGet0, geo_request, weather_request]

/-- C8 witness: a successful Tokyo run issues exactly the geocoding request
then the weather request with the stated parameters. -/
theorem c8_exact_two_requests_witness :
    (get_weather_logic "Tokyo"
      ⟨.ok ⟨some [⟨some "35.7", some "139.7", some "Tokyo"⟩]⟩,
       .ok ⟨some ⟨some "22.0", some "4.0"⟩⟩⟩).2 =
      [⟨geo_url, "GET",
        [("name", .pstr "Tokyo"), ("count", .pint 1),
         ("language", .pstr "en"), ("format", .pstr "json")]⟩,
       ⟨weather_url, "GET",
        [("latitude", .num "35.7"), ("longitude", .num "139.7"),
         ("current_weather", .pstr "true")]⟩] := by
  exact c8_exact_two_requests "Tokyo"
    ⟨.ok ⟨some [⟨some "35.7", some "139.7", some "Tokyo"⟩]⟩,
     .ok ⟨some ⟨some "22.0", some "4.0"⟩⟩⟩
    ⟨some [⟨some "35.7", some "139.7", some "Tokyo"⟩]⟩
    ⟨some "35.7", some "139.7", some "Tokyo"⟩ [] "35.7" "139.7" "Tokyo"
    ⟨some ⟨some "22.0", some "4.0"⟩⟩
    rfl rfl rfl rfl rfl rfl

/-- C9: while the shared client is absent, every get_http_client call returns
a freshly constructed client distinct from the one the next call returns, and
leaves the shared-client global unchanged (the fallback is never registered);
when the shared client exists, get_http_client returns exactly that instance
and leaves the whole state untouched. -/
theorem c9_acquire_fallback (s : ClientState) :
    (∀ c, s.shared = some c → get_http_client s = (c, s)) ∧
    (s.shared = none →
      (get_http_client s).1 ≠ (get_http_client (get_http_client s).2).1 ∧
      ((get_http_client s).2).shared = s.shared ∧
      ((get_http_client (get_http_client s).2).2).shared = s.shared) := by
  obtain ⟨sh, n⟩ := s
  cases sh with
  | none =>
    refine ⟨fun c hc => by simp at hc, fun _ => ⟨?_, ?_, ?_⟩⟩
    · simp [get_http_client]
    · simp [get_http_client]
    · simp [get_http_client]
  | some c0 =>
    refine ⟨fun c hc => ?_, fun h => by simp at h⟩
    obtain rfl : c0 = c := by simpa using hc
    simp [get_http_client]

/-- C9 witness: with the shared client registered as instance 5 the call
returns instance 5 unchanged, and with no shared client two successive calls
return distinct fresh instances. -/
theorem c9_acquire_fallback_witness :
    get_http_client ⟨some 5, 6⟩ = (5, ⟨some 5, 6⟩) ∧
    (get_http_client ⟨none, 0⟩).1 ≠
      (get_http_client (get_http_client ⟨none, 0⟩).2).1 := by
  exact ⟨(c9_acquire_fallback ⟨some 5, 6⟩).1 5 rfl,
         ((c9_acquire_fallback ⟨none, 0⟩).2 rfl).1⟩

/-- C10: when the weather response succeeds but lacks the entire
current_weather object, get_weather_logic still returns the formatted string
with None for both temperature and windspeed instead of raising. -/
theorem c10_absent_current_weather (city : String) (client : Client)
    (g : GeoData) (entry : GeoEntry) (rest : List GeoEntry) (lat lng : PyNum)
    (nm : String) (wd : WeatherData)
    (hg : client.geoResp = .ok g)
    (hr : g.results = some (entry :: rest))
    (hlat : entry.latitude = some lat)
    (hlng : entry.longitude = some lng)
    (hnm : entry.name = some nm)
    (hw : client.weatherResp = .ok wd)
    (hcw : wd.current_weather = none) :
    (get_weather_logic city client).1 =
      .ok ("Current weather in " ++ nm ++ ": " ++ "None" ++ "°C, Wind: " ++
           "None" ++ "km/h") := by
  simp [get_weather_logic, hg, hr, hlat, hlng, hnm, hw, hcw, resultsFalsy,
        dictGet, listGet0, pyStr]

/-- C10 witness: a weather body with no current_weather object for Cairo
yields the formatted string with None for both values. -/
theorem c10_absent_current_weather_witness :
    (get_weather_logic "Cairo"
      ⟨.ok ⟨some [⟨some "30.0", some "31.2", some "Cairo"⟩]⟩,
       .ok ⟨none⟩⟩).1 =
      .ok "Current weather in Cairo: None°C, Wind: Nonekm/h" := by
  have h := c10_absent_current_weather "Cairo"
    ⟨.ok ⟨some [⟨some "30.0", some "31.2", some "Cairo"⟩]⟩, .ok ⟨none⟩⟩
    ⟨some [⟨some "30.0", some "31.2", some "Cairo"⟩]⟩
    ⟨some "30.0", some "31.2", some "Cairo"⟩ [] "30.0" "31.2" "Cairo"
    ⟨none⟩ rfl rfl rfl rfl rfl rfl rfl
  simpa using h
